import Mathlib

/-!
Verification of the sized-object lifecycle protocol and compute-dispatch
pipeline of `src/main.cpp` (a PAL GPU compute bootstrap program), as a
shallow embedding in Lean.

The device layer (PAL) is an external collaborator: its calls are modelled
by oracles (structures holding the result codes and pointers each call
would produce) and by traces of events, so that the control flow of the
program around those calls is embedded faithfully.
-/

namespace Nirah

/-- Modelled from the spec: the device layer result-code type (`Util::Result`).
All device-layer operations return a result code; by PAL convention error
codes are the negative values and `Success` is `0`. Only the classification
into success versus error is consumed by this program. -/
abbrev Result : Type := Int

/-- Modelled from the spec: the dedicated success/error classification check
(`Util::IsErrorResult`): error result codes are the negative ones. -/
def IsErrorResult (r : Result) : Bool :=
  decide (r < 0)

/-- An error condition raised by the program: either a device-layer error
carrying the result code (`PalError` at main.cpp:20-22, thrown by
`checkResult`), or a fatal descriptive condition
(`std::runtime_error`). -/
inductive ProgError
  | pal (result : Result)
  | fatal (msg : String)
deriving DecidableEq, Repr

/-- `checkResult` (main.cpp:24-27): passes the result code through the
classification check and aborts the current operation with a `PalError`
carrying the code when it classifies as an error. -/
def checkResult (result : Result) : Except ProgError Unit :=
  if IsErrorResult result then
    Except.error (ProgError.pal result)
  else
    Except.ok ()

/-- Observable events of the lifecycle protocol and of the bootstrap
sequence: size queries, raw-memory allocation (`malloc`), the construction
call on a block, `free`, the virtual `Destroy` teardown call on a handle,
the bounded device enumeration (recording the capacity of the array it was
given), and the per-device property query. -/
inductive Event
  | sizeQuery
  | alloc (size addr : Nat)
  | create (addr : Nat)
  | freeMem (addr : Nat)
  | destroy (handle : Nat)
  | enumerate (capacity : Nat)
  | getProps (deviceIndex : Nat)
deriving DecidableEq, Repr

/-- Oracle for one run of the two-phase `Unique` constructor
(main.cpp:37-54): the result code and byte count the sizing operation
produces, the address `malloc` returns, and the result code and handle
pointer the construction operation produces. -/
structure CtorEnv where
  sizeRes : Result
  sizeVal : Nat
  allocAddr : Nat
  createRes : Result
  createPtr : Nat
deriving DecidableEq, Repr

/-- The `Unique` constructor (main.cpp:37-54): query the size and check the
result; `malloc` a block of that size; run the construction operation on
the block; on construction error `free` the block and raise the error;
on success store the handle pointer the construction returned (not the
block pointer). Returns the event trace and either the stored handle or
the propagated error. -/
def uniqueCtor (env : CtorEnv) : List Event × Except ProgError Nat :=
  if IsErrorResult env.sizeRes then
    ([Event.sizeQuery], Except.error (ProgError.pal env.sizeRes))
  else if IsErrorResult env.createRes then
    ([Event.sizeQuery, Event.alloc env.sizeVal env.allocAddr, Event.create env.allocAddr,
      Event.freeMem env.allocAddr],
     Except.error (ProgError.pal env.createRes))
  else
    ([Event.sizeQuery, Event.alloc env.sizeVal env.allocAddr, Event.create env.allocAddr],
     Except.ok env.createPtr)

/-- The `Unique` destructor (main.cpp:65-70): when the stored handle is
non-null, first call the virtual `Destroy` teardown on it, then `free` the
stored handle address; when it is null, do nothing. -/
def uniqueDtor : Option Nat → List Event
  | none => []
  | some p => [Event.destroy p, Event.freeMem p]

/-- A system of `Unique` owners: each slot holds the stored handle of one
owner (`none` when the owner holds nothing, as after move construction or
destruction). -/
abbrev OwnerState : Type := List (Option Nat)

/-- Lifecycle operations on a system of `Unique` owners: successful
two-phase construction of a fresh handle, move construction from an
existing owner (main.cpp:56-58), move assignment between two owners
(main.cpp:60-63), and destruction of an owner (main.cpp:65-70). -/
inductive Op
  | construct (h : Nat)
  | moveCtor (src : Nat)
  | moveAssign (dst src : Nat)
  | destruct (i : Nat)
deriving DecidableEq, Repr

/-- One lifecycle step on the owner system, returning the new state and the
events emitted. Move construction takes the handle of the source with
`std::exchange`, leaving the source null. Move assignment is
`std::swap` of the two stored handles. Destruction emits the destructor
events of the slot and leaves the slot empty. -/
def step (st : OwnerState) : Op → OwnerState × List Event
  | Op.construct h => (st ++ [some h], [])
  | Op.moveCtor src => (st.set src none ++ [st.getD src none], [])
  | Op.moveAssign dst src =>
    if dst < st.length ∧ src < st.length then
      ((st.set dst (st.getD src none)).set src (st.getD dst none), [])
    else
      (st, [])
  | Op.destruct i => (st.set i none, uniqueDtor (st.getD i none))

/-- Run a sequence of lifecycle operations from a starting state,
concatenating the emitted events. -/
def run (st : OwnerState) : List Op → OwnerState × List Event
  | [] => (st, [])
  | op :: ops =>
    let s := step st op
    let r := run s.1 ops
    (r.1, s.2 ++ r.2)

/-- How many owners currently store the handle `h`. -/
def handleCount (h : Nat) (st : OwnerState) : Nat :=
  st.count (some h)

/-- How many successful constructions of the handle `h` a sequence of
lifecycle operations performs. -/
def constructCount (h : Nat) (ops : List Op) : Nat :=
  ops.count (Op.construct h)

/-- A concrete lifecycle run used to instantiate the lifecycle theorems:
construct handle 5, move-construct a second owner from the first, construct
handle 7, move-assign between the two non-null owners (a swap), then
destruct all three owners. -/
def demoOps : List Op :=
  [Op.construct 5, Op.moveCtor 0, Op.construct 7, Op.moveAssign 1 2,
   Op.destruct 0, Op.destruct 1, Op.destruct 2]

/-- Engine types consumed by the program (`Pal::EngineType`). -/
inductive EngineType
  | universal
  | compute
  | dma
deriving DecidableEq, Repr

/-- Per-engine-type device properties consumed by queue creation: the
engine count and the queue-support capability mask. -/
structure EngineProps where
  engineCount : Nat
  queueSupport : Nat
deriving DecidableEq, Repr

/-- The slice of `Pal::DeviceProperties` consumed by queue creation. -/
structure DeviceProperties where
  engineProperties : EngineType → EngineProps

/-- Modelled from the spec: the capability-mask bit for compute-queue
support (`Pal::SupportQueueTypeCompute`, the bit indexed by the compute
queue type). -/
def SupportQueueTypeCompute : Nat := 2

/-- `create_queue` (main.cpp:118-135): verify from the already-queried
device properties that the compute engine count is nonzero and that the
compute engine queue-support mask includes compute-queue support; on
failure raise a descriptive fatal error before any device call; otherwise
run the two-phase constructor (sizing call, allocation, construction). -/
def create_queue (props : DeviceProperties) (dev : CtorEnv) :
    List Event × Except ProgError Nat :=
  if (props.engineProperties EngineType.compute).engineCount = 0 then
    ([], Except.error (ProgError.fatal "Device has no compute engines"))
  else if (props.engineProperties EngineType.compute).queueSupport &&& SupportQueueTypeCompute = 0 then
    ([], Except.error (ProgError.fatal "Compute engine does not support compute queue ???"))
  else
    uniqueCtor dev

/-- Modelled from the spec: the hard upper bound on the device count
(`Pal::MaxDevices`), the capacity of the bounded array passed to device
enumeration. -/
def MaxDevices : Nat := 16

/-- Oracle for `select_device`: the result code of the enumeration call,
the enumerated device count, the enumerated device handles, and the result
code of the property query on each device index. -/
structure PlatformState where
  enumRes : Result
  deviceCount : Nat
  devices : List Nat
  propsRes : Nat → Result

/-- The property-introspection loop of `select_device` (main.cpp:102-113):
query the properties of each listed device index in order, checking each
result; abort at the first error. -/
def introspect (p : PlatformState) : List Nat → List Event × Except ProgError Unit
  | [] => ([], Except.ok ())
  | i :: is =>
    if IsErrorResult (p.propsRes i) then
      ([Event.getProps i], Except.error (ProgError.pal (p.propsRes i)))
    else
      let r := introspect p is
      (Event.getProps i :: r.1, r.2)

/-- `select_device` (main.cpp:92-116): enumerate devices into an array of
capacity `MaxDevices` and check the result; raise a fatal error when the
enumerated count is zero; query the properties of every enumerated device;
then return the first device in enumeration order. -/
def select_device (p : PlatformState) : List Event × Except ProgError Nat :=
  if IsErrorResult p.enumRes then
    ([Event.enumerate MaxDevices], Except.error (ProgError.pal p.enumRes))
  else if p.deviceCount = 0 then
    ([Event.enumerate MaxDevices], Except.error (ProgError.fatal "Platform has no devices"))
  else
    let r := introspect p (List.range p.deviceCount)
    match r.2 with
    | Except.error e => (Event.enumerate MaxDevices :: r.1, Except.error e)
    | Except.ok _ => (Event.enumerate MaxDevices :: r.1, Except.ok (p.devices.getD 0 0))

/-- Virtual-address range classes for GPU memory (`Pal::VaRange`): the
general-purpose default range and the range reserved for descriptor
tables. -/
inductive VaRange
  | Default
  | DescriptorTable
deriving DecidableEq, Repr

/-- Modelled from the spec: the tag meaning raw/untyped access
(`Pal::UndefinedSwizzledFormat`), distinguished here only from every
defined format value. -/
def UndefinedSwizzledFormat : Nat := 0

/-- One untyped buffer-view record (`Pal::BufferViewInfo` as filled at
main.cpp:275-289): target device virtual address, byte range, stride and
format tag. -/
structure BufferViewInfo where
  gpuAddr : Nat
  range : Nat
  stride : Nat
  swizzledFormat : Nat
deriving DecidableEq, Repr

/-- The descriptor-table write performed at main.cpp:267-293: the byte size
of the table buffer, the virtual-address range class it is allocated in,
and the buffer-view records written into the mapped table in slot order. -/
structure DescriptorTableWrite where
  tableSize : Nat
  vaRange : VaRange
  views : List BufferViewInfo
deriving DecidableEq, Repr

/-- The descriptor-table construction (main.cpp:267-293): allocate one
buffer of two buffer-view descriptors in the descriptor-table range, and
write two untyped view records, the output buffer first and the input
buffer second (the source notes the two are switched), each with the
target address, the shared byte size, zero stride and the undefined-format
tag. -/
def buildDescriptorTable (bufferViewSize inputAddr outputAddr size : Nat) :
    DescriptorTableWrite :=
  { tableSize := bufferViewSize * 2
    vaRange := VaRange.DescriptorTable
    views :=
      [{ gpuAddr := outputAddr, range := size, stride := 0,
         swizzledFormat := UndefinedSwizzledFormat },
       { gpuAddr := inputAddr, range := size, stride := 0,
         swizzledFormat := UndefinedSwizzledFormat }] }

/-- The item count of the program (`n_items = 0x10`, main.cpp:243). -/
def n_items : Nat := 0x10

/-- The fixed thread-group size on the x axis used by the dispatch
(main.cpp:313 divides the item count by 8). -/
def groupSize : Nat := 8

/-- The 3D thread-group count of the recorded dispatch
(`CmdDispatch(n_items / 8, 1, 1)`, main.cpp:313); the division is
truncating natural division. -/
def dispatchDims (items : Nat) : Nat × Nat × Nat :=
  (items / 8, 1, 1)

/-- One result-returning device-layer call site of the program: the callee
and whether its returned result code is passed through the classification
check (`checkResult` at main.cpp:24-27, or the same `Util::IsErrorResult`
check inlined at main.cpp:46). -/
structure DeviceCall where
  callee : String
  line : Nat
  checked : Bool
deriving DecidableEq, Repr

/-- Every result-returning device-layer call site of the program, in
program order. `Pal::GetPlatformSize` (main.cpp:87) returns only a byte
count and `CreateUntypedBufferViewSrds`, `CmdBindPipeline`,
`CmdSetUserData` and `CmdDispatch` return no result code, so they do not
appear. Calls made through the `Unique` constructor are checked at
main.cpp:40 and main.cpp:46. The final readback `output->Unmap()` at
main.cpp:328 discards its result code. -/
def mainDeviceCalls : List DeviceCall :=
  [{ callee := "Pal::CreatePlatform", line := 88, checked := true },
   { callee := "IPlatform::EnumerateDevices", line := 95, checked := true },
   { callee := "IDevice::GetProperties (enumeration loop)", line := 104, checked := true },
   { callee := "IDevice::GetProperties (selected device)", line := 222, checked := true },
   { callee := "IDevice::CommitSettingsAndInit", line := 227, checked := true },
   { callee := "IDevice::Finalize", line := 228, checked := true },
   { callee := "IDevice::GetQueueSize", line := 132, checked := true },
   { callee := "IDevice::CreateQueue", line := 133, checked := true },
   { callee := "IDevice::GetCmdAllocatorSize", line := 157, checked := true },
   { callee := "IDevice::CreateCmdAllocator", line := 158, checked := true },
   { callee := "IDevice::GetCmdBufferSize", line := 170, checked := true },
   { callee := "IDevice::CreateCmdBuffer", line := 171, checked := true },
   { callee := "IDevice::GetComputePipelineSize", line := 182, checked := true },
   { callee := "IDevice::CreateComputePipeline", line := 183, checked := true },
   { callee := "IDevice::GetGpuMemorySize", line := 199, checked := true },
   { callee := "IDevice::CreateGpuMemory", line := 200, checked := true },
   { callee := "IGpuMemory::Map (input)", line := 254, checked := true },
   { callee := "IGpuMemory::Map (output)", line := 255, checked := true },
   { callee := "IGpuMemory::Unmap (input)", line := 262, checked := true },
   { callee := "IGpuMemory::Unmap (output)", line := 263, checked := true },
   { callee := "IGpuMemory::Map (table)", line := 274, checked := true },
   { callee := "IGpuMemory::Unmap (table)", line := 291, checked := true },
   { callee := "ICmdBuffer::Begin", line := 297, checked := true },
   { callee := "ICmdBuffer::End", line := 315, checked := true },
   { callee := "IQueue::Submit", line := 210, checked := true },
   { callee := "IQueue::WaitIdle", line := 318, checked := true },
   { callee := "IGpuMemory::Map (readback)", line := 323, checked := true },
   { callee := "IGpuMemory::Unmap (readback)", line := 328, checked := false }]

/-! Helper lemmas about `List.getD` and `List.count` on owner states. -/

/-- Reading an in-range slot with a default equals indexing. -/
theorem getD_eq_get (l : OwnerState) (i : Nat) (hi : i < l.length) :
    l.getD i none = l[i] := by
  simp [List.getD_eq_getElem?_getD, List.getElem?_eq_getElem hi]

/-- Reading back an in-range slot that was just written. -/
theorem getD_set_self (l : OwnerState) (i : Nat) (x : Option Nat) (hi : i < l.length) :
    (l.set i x).getD i none = x := by
  simp [List.getD_eq_getElem?_getD, List.getElem?_set_self, hi]

/-- Writing one slot leaves the others unchanged. -/
theorem getD_set_ne (l : OwnerState) (i j : Nat) (x : Option Nat) (hne : i ≠ j) :
    (l.set i x).getD j none = l.getD j none := by
  simp [List.getD_eq_getElem?_getD, List.getElem?_set_ne hne]

/-- Additive form of the effect of `List.set` on an occurrence count: the
count after the write plus the occurrence removed equals the count before
plus the occurrence added. -/
theorem count_set_opt (l : OwnerState) (i : Nat) (x a : Option Nat) (hi : i < l.length) :
    (l.set i x).count a + (if l.getD i none = a then 1 else 0)
      = l.count a + (if x = a then 1 else 0) := by
  have hg := getD_eq_get l i hi
  have hcs := List.count_set x a l i hi
  have hle : (if (l[i] == a) = true then 1 else 0) ≤ l.count a := by
    split
    · next hb =>
      have hmem : a ∈ l := (eq_of_beq hb) ▸ List.getElem_mem hi
      exact List.count_pos_iff.mpr hmem
    · exact Nat.zero_le _
  rw [hg]
  by_cases hb : l[i] = a <;> by_cases hx : x = a <;>
    simp only [hb, hx, if_true, if_false, beq_iff_eq] at hcs hle ⊢ <;> omega

/-- Conservation of handles over one lifecycle step: the number of owners
of `h` afterwards, plus the `Destroy h` events the step emits, equals the
number of owners of `h` before, plus one when the step is a successful
construction of `h`. -/
theorem step_handleCount (st : OwnerState) (op : Op) (h : Nat) :
    handleCount h (step st op).1 + (step st op).2.count (Event.destroy h)
      = handleCount h st + (if op = Op.construct h then 1 else 0) := by
  cases op with
  | construct h2 =>
    by_cases hx : h2 = h
    · subst hx; simp [step, handleCount, List.count_append, List.count_cons]
    · simp [step, handleCount, List.count_append, List.count_cons, hx]
  | moveCtor src =>
    have hop : (if Op.moveCtor src = Op.construct h then 1 else 0) = 0 := by simp
    by_cases hs : src < st.length
    · have hcs := count_set_opt st src none (some h) hs
      have hz : (if (none : Option Nat) = some h then 1 else 0) = 0 := by simp
      rw [hz] at hcs
      have hone : List.count (some h) [st.getD src none]
          = if st.getD src none = some h then 1 else 0 := by
        simp [List.count_cons]
      simp only [step, handleCount, List.count_append, List.count_nil, hone, hop]
      omega
    · have hset : st.set src none = st := List.set_eq_of_length_le (Nat.le_of_not_lt hs)
      have hg : st.getD src none = none := List.getD_eq_default _ _ (Nat.le_of_not_lt hs)
      simp only [step, hset, hg]
      simp [handleCount, List.count_append, List.count_cons]
  | moveAssign dst src =>
    by_cases hcond : dst < st.length ∧ src < st.length
    · obtain ⟨hd, hs⟩ := hcond
      have hstep : step st (Op.moveAssign dst src)
          = ((st.set dst (st.getD src none)).set src (st.getD dst none), []) := by
        simp [step, hd, hs]
      have hlen : (st.set dst (st.getD src none)).length = st.length := by simp
      have h1 := count_set_opt (st.set dst (st.getD src none)) src (st.getD dst none)
        (some h) (by rw [hlen]; exact hs)
      have h2 := count_set_opt st dst (st.getD src none) (some h) hd
      have h3 : (st.set dst (st.getD src none)).getD src none = st.getD src none := by
        by_cases he : dst = src
        · subst he; exact getD_set_self st dst (st.getD dst none) hd
        · exact getD_set_ne st dst src _ he
      rw [h3] at h1
      have h4 := Nat.add_right_cancel (h1.trans h2)
      rw [hstep]
      simpa [handleCount] using h4
    · simp [step, if_neg hcond]
  | destruct i =>
    by_cases hi : i < st.length
    · have hcs := count_set_opt st i none (some h) hi
      have hz : (if (none : Option Nat) = some h then 1 else 0) = 0 := by simp
      rw [hz] at hcs
      cases hg : st.getD i none with
      | none =>
        rw [hg] at hcs
        simp only [step]
        rw [hg]
        simp only [uniqueDtor, handleCount, List.count_nil]
        simp at hcs ⊢
        omega
      | some p =>
        rw [hg] at hcs
        simp only [step]
        rw [hg]
        simp only [uniqueDtor, handleCount, List.count_cons, List.count_nil]
        by_cases hp : p = h
        · subst hp; simp at hcs ⊢; omega
        · simp [hp] at hcs ⊢; omega
    · have hset : st.set i none = st := List.set_eq_of_length_le (Nat.le_of_not_lt hi)
      have hg : st.getD i none = none := List.getD_eq_default _ _ (Nat.le_of_not_lt hi)
      simp only [step]
      rw [hset, hg]
      simp [uniqueDtor, handleCount]

/-- Conservation of handles over a whole run: owners of `h` at the end,
plus `Destroy h` events emitted, equal owners of `h` at the start plus
successful constructions of `h`. -/
theorem run_handleCount (ops : List Op) (st : OwnerState) (h : Nat) :
    handleCount h (run st ops).1 + (run st ops).2.count (Event.destroy h)
      = handleCount h st + constructCount h ops := by
  induction ops generalizing st with
  | nil => simp [run, constructCount]
  | cons op ops ih =>
    simp only [run, List.count_append]
    have h1 := step_handleCount st op h
    have h2 := ih (step st op).1
    have h3 : constructCount h (op :: ops)
        = constructCount h ops + (if op = Op.construct h then 1 else 0) := by
      by_cases hx : op = Op.construct h <;> simp [constructCount, List.count_cons, hx]
    rw [h3]
    omega

/-- Each lifecycle step emits as many `free h` events as `Destroy h`
events: the destructor always pairs the teardown call with the free. -/
theorem step_free_count (st : OwnerState) (op : Op) (h : Nat) :
    (step st op).2.count (Event.freeMem h) = (step st op).2.count (Event.destroy h) := by
  cases op with
  | construct h2 => simp [step]
  | moveCtor src => simp [step]
  | moveAssign dst src =>
    by_cases hcond : dst < st.length ∧ src < st.length <;> simp [step, hcond]
  | destruct i =>
    cases hg : st.getD i none with
    | none => simp only [step]; rw [hg]; simp [uniqueDtor]
    | some p =>
      simp only [step]
      rw [hg]
      by_cases hp : p = h <;> simp [uniqueDtor, List.count_cons, hp]

/-- Over a whole run, `free h` events and `Destroy h` events are emitted in
equal numbers. -/
theorem run_free_count (ops : List Op) (st : OwnerState) (h : Nat) :
    (run st ops).2.count (Event.freeMem h) = (run st ops).2.count (Event.destroy h) := by
  induction ops generalizing st with
  | nil => simp [run]
  | cons op ops ih =>
    simp only [run, List.count_append]
    rw [step_free_count, ih]

/-- The property-introspection loop succeeds and queries every listed
device in order when no property query reports an error. -/
theorem introspect_ok (p : PlatformState) (l : List Nat)
    (hok : ∀ i ∈ l, IsErrorResult (p.propsRes i) = false) :
    introspect p l = (l.map Event.getProps, Except.ok ()) := by
  induction l with
  | nil => rfl
  | cons i is ih =>
    have hi : IsErrorResult (p.propsRes i) = false := hok i (by simp)
    have hrest := ih (fun j hj => hok j (by simp [hj]))
    simp [introspect, hi, hrest]

/-! Claim theorems. -/

/-- Claim C2: in the `Unique` constructor, if the sizing step succeeds but
the construction step returns an error code, the raw block allocated for
the attempt is freed exactly once, no handle is stored (the constructor
ends in the error, not in a stored handle), and the error carrying that
result code propagates to the caller. -/
theorem claim_C2 (env : CtorEnv)
    (hs : IsErrorResult env.sizeRes = false)
    (hc : IsErrorResult env.createRes = true) :
    (uniqueCtor env).1.count (Event.freeMem env.allocAddr) = 1 ∧
    Event.alloc env.sizeVal env.allocAddr ∈ (uniqueCtor env).1 ∧
    (uniqueCtor env).2 = Except.error (ProgError.pal env.createRes) := by
  simp [uniqueCtor, hs, hc, List.count_cons]

/-- Witness for claim C2 at a concrete constructor oracle: sizing succeeds
with 4 bytes, `malloc` returns block 100, construction fails with code -1. -/
theorem claim_C2_witness :
    IsErrorResult ((0 : Int)) = false ∧ IsErrorResult ((-1 : Int)) = true ∧
    ((uniqueCtor ⟨0, 4, 100, -1, 7⟩).1.count (Event.freeMem 100) = 1 ∧
     Event.alloc 4 100 ∈ (uniqueCtor ⟨0, 4, 100, -1, 7⟩).1 ∧
     (uniqueCtor ⟨0, 4, 100, -1, 7⟩).2 = Except.error (ProgError.pal (-1))) :=
  ⟨by decide, by decide, claim_C2 ⟨0, 4, 100, -1, 7⟩ (by decide) (by decide)⟩

/-- Claim C3: in the `Unique` constructor, if the sizing operation reports
an error result code, no allocation and no construction call occur; the
trace is the size query alone and the error propagates carrying that
code. -/
theorem claim_C3 (env : CtorEnv) (hs : IsErrorResult env.sizeRes = true) :
    (uniqueCtor env).1 = [Event.sizeQuery] ∧
    (∀ s a, Event.alloc s a ∉ (uniqueCtor env).1) ∧
    (∀ a, Event.create a ∉ (uniqueCtor env).1) ∧
    (uniqueCtor env).2 = Except.error (ProgError.pal env.sizeRes) := by
  simp [uniqueCtor, hs]

/-- Witness for claim C3 at a concrete constructor oracle whose sizing call
reports error code -2. -/
theorem claim_C3_witness :
    IsErrorResult ((-2 : Int)) = true ∧
    ((uniqueCtor ⟨-2, 4, 100, 0, 7⟩).1 = [Event.sizeQuery] ∧
     (∀ s a, Event.alloc s a ∉ (uniqueCtor ⟨-2, 4, 100, 0, 7⟩).1) ∧
     (∀ a, Event.create a ∉ (uniqueCtor ⟨-2, 4, 100, 0, 7⟩).1) ∧
     (uniqueCtor ⟨-2, 4, 100, 0, 7⟩).2 = Except.error (ProgError.pal (-2))) :=
  ⟨by decide, claim_C3 ⟨-2, 4, 100, 0, 7⟩ (by decide)⟩

/-- Claim C4: on successful construction the owner stores the handle
pointer the construction operation returned (not the block pointer it
allocated), and the destructor invokes the `Destroy` teardown then frees
the stored handle address, in that order, exactly when the stored handle
is non-null. -/
theorem claim_C4 (env : CtorEnv)
    (hs : IsErrorResult env.sizeRes = false)
    (hc : IsErrorResult env.createRes = false) :
    (uniqueCtor env).2 = Except.ok env.createPtr ∧
    (∀ p, uniqueDtor (some p) = [Event.destroy p, Event.freeMem p]) ∧
    uniqueDtor none = [] := by
  simp [uniqueCtor, hs, hc, uniqueDtor]

/-- Witness for claim C4 at a concrete constructor oracle where the handle
pointer 7 returned by construction differs from the allocated block
address 100: the owner stores 7. -/
theorem claim_C4_witness :
    IsErrorResult ((0 : Int)) = false ∧
    ((uniqueCtor ⟨0, 4, 100, 0, 7⟩).2 = Except.ok 7 ∧
     (∀ p, uniqueDtor (some p) = [Event.destroy p, Event.freeMem p]) ∧
     uniqueDtor none = []) :=
  ⟨by decide, claim_C4 ⟨0, 4, 100, 0, 7⟩ (by decide) (by decide)⟩

/-- Claim C6: queue creation verifies from the already-queried device
properties that the compute engine count is nonzero and that the compute
engine capability mask includes compute-queue support; when either check
fails it returns a descriptive fatal error with an empty device-call trace
(no sizing or construction call occurs). -/
theorem claim_C6 (props : DeviceProperties) (dev : CtorEnv)
    (hfail : (props.engineProperties EngineType.compute).engineCount = 0 ∨
      (props.engineProperties EngineType.compute).queueSupport &&& SupportQueueTypeCompute = 0) :
    (create_queue props dev).1 = [] ∧
    ((create_queue props dev).2 = Except.error (ProgError.fatal "Device has no compute engines") ∨
     (create_queue props dev).2
       = Except.error (ProgError.fatal "Compute engine does not support compute queue ???")) := by
  by_cases h0 : (props.engineProperties EngineType.compute).engineCount = 0
  · simp [create_queue, h0]
  · have hm : (props.engineProperties EngineType.compute).queueSupport
        &&& SupportQueueTypeCompute = 0 := by
      rcases hfail with hx | hx
      · exact absurd hx h0
      · exact hx
    simp [create_queue, h0, hm]

/-- Witness for claim C6 at concrete device properties reporting zero
compute engines and an empty capability mask. -/
theorem claim_C6_witness :
    (create_queue ⟨fun _ => ⟨0, 0⟩⟩ ⟨0, 4, 100, 0, 7⟩).1 = [] ∧
    ((create_queue ⟨fun _ => ⟨0, 0⟩⟩ ⟨0, 4, 100, 0, 7⟩).2
       = Except.error (ProgError.fatal "Device has no compute engines") ∨
     (create_queue ⟨fun _ => ⟨0, 0⟩⟩ ⟨0, 4, 100, 0, 7⟩).2
       = Except.error (ProgError.fatal "Compute engine does not support compute queue ???")) :=
  claim_C6 ⟨fun _ => ⟨0, 0⟩⟩ ⟨0, 4, 100, 0, 7⟩ (Or.inl rfl)

/-- Claim C7: the descriptor table is one buffer sized for exactly two
fixed-size buffer-view descriptors, allocated in the descriptor-table
virtual-address range; exactly two untyped view records are written, each
carrying the target buffer address, the byte range, zero stride and the
undefined-format tag, and for every pair of input/output addresses the
records appear in the same fixed slot order (output first, then input). -/
theorem claim_C7 (bufferViewSize inputAddr outputAddr size : Nat) :
    (buildDescriptorTable bufferViewSize inputAddr outputAddr size).tableSize
      = bufferViewSize * 2 ∧
    (buildDescriptorTable bufferViewSize inputAddr outputAddr size).vaRange
      = VaRange.DescriptorTable ∧
    (buildDescriptorTable bufferViewSize inputAddr outputAddr size).views.length = 2 ∧
    (buildDescriptorTable bufferViewSize inputAddr outputAddr size).views
      = [{ gpuAddr := outputAddr, range := size, stride := 0,
           swizzledFormat := UndefinedSwizzledFormat },
         { gpuAddr := inputAddr, range := size, stride := 0,
           swizzledFormat := UndefinedSwizzledFormat }] :=
  ⟨rfl, rfl, rfl, rfl⟩

/-- Claim C8: the recorded dispatch uses the 3D thread-group count
(items / 8, 1, 1) with truncating division by the fixed group size 8, and
for every item count that is an exact multiple of the group size the
dispatched x group count covers the items exactly (zero remainder). -/
theorem claim_C8 (items : Nat) (hmul : items % groupSize = 0) :
    dispatchDims items = (items / groupSize, 1, 1) ∧
    (dispatchDims items).1 * groupSize = items := by
  refine ⟨rfl, ?_⟩
  have hdvd : groupSize ∣ items := Nat.dvd_of_mod_eq_zero hmul
  simpa [dispatchDims, groupSize] using Nat.div_mul_cancel hdvd

/-- Witness for claim C8 at the item count the program actually dispatches
(16 items, 2 groups of 8). -/
theorem claim_C8_witness :
    n_items % groupSize = 0 ∧ dispatchDims n_items = (n_items / groupSize, 1, 1) ∧
    (dispatchDims n_items).1 * groupSize = n_items :=
  ⟨by decide, (claim_C8 n_items (by decide)).1, (claim_C8 n_items (by decide)).2⟩

/-- Claim C9: device selection enumerates into an array of capacity
`MaxDevices` and checks the result code; when the enumerated count is zero
it raises a fatal error; otherwise it queries the properties of every
enumerated device in order and returns the first device in enumeration
order, with no scoring or preference heuristic. -/
theorem claim_C9 (p : PlatformState) (he : IsErrorResult p.enumRes = false) :
    (p.deviceCount = 0 →
      select_device p
        = ([Event.enumerate MaxDevices], Except.error (ProgError.fatal "Platform has no devices"))) ∧
    (0 < p.deviceCount →
      (∀ i, i < p.deviceCount → IsErrorResult (p.propsRes i) = false) →
      select_device p
        = (Event.enumerate MaxDevices :: (List.range p.deviceCount).map Event.getProps,
           Except.ok (p.devices.getD 0 0))) := by
  constructor
  · intro h0
    simp [select_device, he, h0]
  · intro hpos hprops
    have hne : ¬ p.deviceCount = 0 := Nat.pos_iff_ne_zero.mp hpos
    have hintro := introspect_ok p (List.range p.deviceCount)
      (fun i hi => hprops i (List.mem_range.mp hi))
    simp [select_device, he, hne, hintro]

/-- Witness for claim C9 at a concrete platform enumerating two devices 10
and 11 whose property queries succeed: the trace queries both devices and
the first device 10 is selected. -/
theorem claim_C9_witness :
    IsErrorResult ((0 : Int)) = false ∧
    select_device ⟨0, 2, [10, 11], fun _ => 0⟩
      = (Event.enumerate MaxDevices :: (List.range 2).map Event.getProps, Except.ok 10) :=
  ⟨by decide, (claim_C9 ⟨0, 2, [10, 11], fun _ => 0⟩ (by decide)).2 (by decide)
    (fun _ _ => rfl)⟩

/-- Counterexample to claim C5 as stated: the readback `output->Unmap()` at
main.cpp:328 is a device-layer call whose returned result code is not
passed through the classification check. -/
theorem claim_C5_counterexample :
    (⟨"IGpuMemory::Unmap (readback)", 328, false⟩ : DeviceCall) ∈ mainDeviceCalls ∧
    ¬ ∀ c ∈ mainDeviceCalls, c.checked = true :=
  ⟨by decide, by decide⟩

/-- Claim C5 (amended): every result-returning device-layer call of the
program except the final readback unmap is passed through the dedicated
success/error classification check, and whenever a checked call returns an
error code the operation aborts immediately with an error condition
carrying that result code; there is no local recovery or retry. -/
theorem claim_C5 (r : Result) :
    ((mainDeviceCalls.filter (fun c => ! c.checked)).map (fun c => c.callee)
      = ["IGpuMemory::Unmap (readback)"]) ∧
    (IsErrorResult r = true → checkResult r = Except.error (ProgError.pal r)) ∧
    (IsErrorResult r = false → checkResult r = Except.ok ()) := by
  refine ⟨by decide, ?_, ?_⟩ <;> intro hr <;> simp [checkResult, hr]

/-- Witness for claim C5 at the concrete error code -3: the check
classifies it as an error and the operation aborts with an error condition
carrying -3. -/
theorem claim_C5_witness :
    IsErrorResult ((-3 : Int)) = true ∧
    checkResult (-3) = Except.error (ProgError.pal (-3)) :=
  ⟨by decide, (claim_C5 (-3)).2.1 (by decide)⟩

/-- Counterexample to claim C1 as stated: move assignment between two
owners holding handles 1 and 2 is a move operation that leaves the source
owner (index 1) holding the former handle of the destination, not null, so
the clause that every move operation nulls the stored handle of the source
owner is false. -/
theorem claim_C1_counterexample :
    (step [some 1, some 2] (Op.moveAssign 0 1)).2 = [] ∧
    (step [some 1, some 2] (Op.moveAssign 0 1)).1.getD 1 none = some 1 :=
  ⟨by decide, by decide⟩

/-- Claim C1 (amended): over any lifecycle run of `Unique` owners that
constructs the handle `h` exactly once and in which no owner still holds
`h` at the end, exactly one `Destroy` teardown and exactly one free occur
for `h` — teardown never fires twice for the same handle even when
ownership is transferred through multiple owners, because move
construction nulls the source while move assignment exchanges the two
stored handles. -/
theorem claim_C1 (ops : List Op) (h : Nat)
    (hcon : constructCount h ops = 1)
    (hfin : handleCount h (run [] ops).1 = 0) :
    (run [] ops).2.count (Event.destroy h) = 1 ∧
    (run [] ops).2.count (Event.freeMem h) = 1 ∧
    ∀ st src, src < List.length st → (step st (Op.moveCtor src)).1.getD src none = none := by
  have h1 := run_handleCount ops [] h
  have h2 := run_free_count ops [] h
  have hz : handleCount h ([] : OwnerState) = 0 := rfl
  refine ⟨by omega, by omega, ?_⟩
  intro st src hs
  have hlen : (st.set src none).length = st.length := by simp
  have happ : (st.set src none ++ [st.getD src none]).getD src none
      = (st.set src none).getD src none := by
    apply List.getD_append
    rw [hlen]
    exact hs
  simp only [step]
  rw [happ, getD_set_self st src none hs]

/-- Witness for claim C1 at the concrete run `demoOps`, which moves handle
5 through three owners by move construction and move assignment before
destroying every owner: handle 5 is destroyed once and freed once. -/
theorem claim_C1_witness :
    constructCount 5 demoOps = 1 ∧
    handleCount 5 (run [] demoOps).1 = 0 ∧
    (run [] demoOps).2.count (Event.destroy 5) = 1 ∧
    (run [] demoOps).2.count (Event.freeMem 5) = 1 :=
  ⟨by decide, by decide, (claim_C1 demoOps 5 (by decide) (by decide)).1,
    (claim_C1 demoOps 5 (by decide) (by decide)).2.1⟩

/-- Claim C10: move assignment between two `Unique` owners exchanges the
two stored handles rather than destroying either: it emits no teardown and
no free, afterwards each of the two slots holds the handle the other held,
every handle has as many owners as before, and the moved-from owner may be
left holding the former handle of the target, whose teardown happens at
the destruction of the moved-from owner. -/
theorem claim_C10 (st : OwnerState) (dst src : Nat)
    (hd : dst < st.length) (hs : src < st.length) :
    (step st (Op.moveAssign dst src)).2 = [] ∧
    (step st (Op.moveAssign dst src)).1.getD dst none = st.getD src none ∧
    (step st (Op.moveAssign dst src)).1.getD src none = st.getD dst none ∧
    (∀ h, handleCount h (step st (Op.moveAssign dst src)).1 = handleCount h st) ∧
    (step (step st (Op.moveAssign dst src)).1 (Op.destruct src)).2
      = uniqueDtor (st.getD dst none) := by
  have hstep : step st (Op.moveAssign dst src)
      = ((st.set dst (st.getD src none)).set src (st.getD dst none), []) := by
    simp [step, hd, hs]
  have hlen1 : (st.set dst (st.getD src none)).length = st.length := by simp
  have hsrc : ((st.set dst (st.getD src none)).set src (st.getD dst none)).getD src none
      = st.getD dst none :=
    getD_set_self _ src _ (by rw [hlen1]; exact hs)
  have hdst : ((st.set dst (st.getD src none)).set src (st.getD dst none)).getD dst none
      = st.getD src none := by
    by_cases he : src = dst
    · subst he
      exact hsrc
    · rw [getD_set_ne _ src dst _ he]
      exact getD_set_self st dst _ hd
  have hcount : ∀ h,
      handleCount h ((st.set dst (st.getD src none)).set src (st.getD dst none))
        = handleCount h st := by
    intro h
    have hsc := step_handleCount st (Op.moveAssign dst src) h
    rw [hstep] at hsc
    simpa [handleCount] using hsc
  refine ⟨by rw [hstep], by rw [hstep]; exact hdst, by rw [hstep]; exact hsrc,
    by intro h; rw [hstep]; exact hcount h, ?_⟩
  rw [hstep]
  simp only [step]
  rw [hsrc]

/-- Witness for claim C10 at the concrete state with owner 0 holding
handle 1 and owner 1 holding handle 2, move-assigning owner 1 into owner
0: the handles are exchanged with no teardown, and destroying the
moved-from owner tears down handle 1. -/
theorem claim_C10_witness :
    (step [some 1, some 2] (Op.moveAssign 0 1)).2 = [] ∧
    (step [some 1, some 2] (Op.moveAssign 0 1)).1.getD 0 none = some 2 ∧
    (step [some 1, some 2] (Op.moveAssign 0 1)).1.getD 1 none = some 1 ∧
    handleCount 2 (step [some 1, some 2] (Op.moveAssign 0 1)).1
      = handleCount 2 [some 1, some 2] ∧
    (step (step [some 1, some 2] (Op.moveAssign 0 1)).1 (Op.destruct 1)).2
      = uniqueDtor (some 1) :=
  have hmain := claim_C10 [some 1, some 2] 0 1 (by decide) (by decide)
  ⟨hmain.1, hmain.2.1, hmain.2.2.1, hmain.2.2.2.1 2, hmain.2.2.2.2⟩

end Nirah
